import Mathlib

/-!
Shallow embedding of the nova-sandbox runtime (src/src/lib.rs) and proofs
about the claims of the specification.

Conventions of the embedding:
* Durations are modelled as natural numbers.  A value suffixed `_ms` is a
  count of milliseconds, a value suffixed `_ns` a count of nanoseconds
  (Rust Duration stores nanoseconds; Duration::from_millis multiplies by
  1000000 and Duration::as_millis divides by 1000000).
* Reads of cgroup pseudo-files during a polling loop are modelled as a
  stream of poll results, a function from the poll index to the value read.
* Rust Duration subtraction panics when the result would be negative; a
  loop that would hit that panic is modelled by the value none.
* Result values are modelled by Except String, matching the Box dyn Error
  payloads of the source.
-/

/-- Kinds of sandbox outcome, from enum SandboxStatusKind (lib.rs 166-175). -/
inductive SandboxStatusKind where
  | TimeLimitExceeded
  | MemoryLimitExceeded
  | RuntimeError
  | Success
deriving DecidableEq, Repr

/-- Outcome record, from struct SandboxStatus (lib.rs 179-188).
used_time is in milliseconds, as produced by Duration::as_millis. -/
structure SandboxStatus where
  status : SandboxStatusKind
  used_time : Nat
  max_memory : Nat
  return_code : Int
deriving DecidableEq, Repr

/-- Duration::from_millis expressed in nanoseconds. -/
def msToNs (ms : Nat) : Nat := ms * 1000000

/-- SandboxCgroup.set_memory_limit (lib.rs 95-102): the pair of values
written to memory.limit_in_bytes and memory.memsw.limit_in_bytes. -/
def set_memory_limit (memory_limit : Nat) : Nat × Nat :=
  (memory_limit * 2, memory_limit * 2)

/-- Memory caps programmed by Sandbox::run (lib.rs 262): run calls
set_memory_limit with config.memory_limit * 2. -/
def run_memory_caps (config_memory_limit : Nat) : Nat × Nat :=
  set_memory_limit (config_memory_limit * 2)

/-- Child process launch parameters, from the Command built in the child
branch of Sandbox::run (lib.rs 272-286). -/
structure LaunchSpec where
  program : String
  args : List String
  current_dir : String
  chroot_dir : String
deriving DecidableEq, Repr

/-- Command construction of Sandbox::run (lib.rs 272-286): program bash,
arguments -c and the configured command string, current dir and chroot
target both the sandbox mount point. -/
def launchCommand (command sandbox_directory : String) : LaunchSpec :=
  { program := "bash"
    args := ["-c", command]
    current_dir := sandbox_directory
    chroot_dir := sandbox_directory }

/-- Mount bookkeeping state of struct Sandbox (lib.rs 152-161); only the
fields relevant to mounting are kept. -/
structure SandboxFS where
  sandbox_directory : String
  work_directory : String
  rootfs_directory : String
  mounted : Bool
deriving DecidableEq, Repr

/-- Sandbox::remove (lib.rs 380-390).  Returns the updated state together
with a flag telling whether an unmount was performed; when the sandbox is
already unmounted the source only logs a warning and returns. -/
def Sandbox.remove (s : SandboxFS) : SandboxFS × Bool :=
  if s.mounted = false then (s, false)
  else ({ s with mounted := false }, true)

/-- Drop for Sandbox (lib.rs 393-398) just calls remove. -/
def Sandbox.dropSandbox (s : SandboxFS) : SandboxFS × Bool :=
  Sandbox.remove s

/-- Exit code of the intermediate forked child (lib.rs 288-296): the code
of the waited grandchild, or -1 when it was signalled (code() is None). -/
def childProcessExit (userWaitCode : Option Int) : Int :=
  match userWaitCode with
  | some c => c
  | none => -1

/-- Exit status of the intermediate child when a launcher step panics
before user code runs; the Rust runtime terminates a panicking process
with exit code 101, which the match at lib.rs 339-348 singles out under
the comment Rust Crashes. -/
def launcherAbortExit : Int := 101

/-- Return-code step of Sandbox::run (lib.rs 339-348): the Some 101 arm
aborts the run with an error, Some code passes the code through, None
becomes -1.  The literal pattern on 101 is rendered as an equality test. -/
def returnCodeOf : Option Int → Except String Int
  | some c => if c = 101 then Except.error "Failed to run command" else Except.ok c
  | none => Except.ok (-1)

/-- Classification of Sandbox::run (lib.rs 257 and 349-362): status starts
as Success, is overwritten by RuntimeError when return_code is nonzero,
then by MemoryLimitExceeded when max_memory exceeds config.memory_limit,
then by TimeLimitExceeded when used_time exceeds
Duration::from_millis(config.time_limit). -/
def classify (return_code : Int) (max_memory memory_limit used_time_ns time_limit_ms : Nat) :
    SandboxStatusKind :=
  let status := SandboxStatusKind.Success
  let status := if return_code ≠ 0 then SandboxStatusKind.RuntimeError else status
  let status := if memory_limit < max_memory then SandboxStatusKind.MemoryLimitExceeded else status
  let status := if msToNs time_limit_ms < used_time_ns then SandboxStatusKind.TimeLimitExceeded
    else status
  status

/-- Tail of Sandbox::run after the fork match (lib.rs 332-377): the result
of kill_all_tasks is consumed by unwrap_or_else which only logs a warning,
then the return code step runs, then classification, and the outcome
record is assembled with used_time converted by as_millis. -/
def runTail (return_code : Option Int) (killResult : Except String Unit)
    (max_memory memory_limit used_time_ns config_time_limit : Nat) :
    Except String SandboxStatus :=
  let _logged := match killResult with
    | Except.ok _ => ()
    | Except.error _ => ()
  match returnCodeOf return_code with
  | Except.error e => Except.error e
  | Except.ok code =>
      Except.ok
        { status := classify code max_memory memory_limit used_time_ns config_time_limit
          used_time := used_time_ns / 1000000
          max_memory := max_memory
          return_code := code }

/-- Fork-failure path of Sandbox::run (lib.rs 265-267): the Err arm of the
fork match only logs, so return_code keeps its initial value Some 0
(lib.rs 265) and used_time keeps its initial value time_limit, the
deadline config.time_limit + 500 ms (lib.rs 256-258); the run then falls
through to the common tail. -/
def runForkFailed (config_time_limit config_memory_limit max_memory : Nat) :
    Except String SandboxStatus :=
  runTail (some 0) (Except.ok ()) max_memory config_memory_limit
    (msToNs (config_time_limit + 500)) config_time_limit

/-- Countdown polling loop shared by the supervisor wait loop
(lib.rs 308-315) and both loops of kill_all_tasks (lib.rs 126-132 and
137-144).  Each iteration first tests timeout > 0 (exhaustion yields the
final budget 0), then reads the polled condition (a hit exits the loop
keeping the remaining budget, which is positive), otherwise sleeps the
100 ms delay and subtracts it from the budget; Rust Duration subtraction
panics when the delay exceeds the remaining budget, modelled by none. -/
def pollLoop (reads : Nat → Bool) (timeout : Nat) : Option Nat :=
  if timeout = 0 then some 0
  else if reads 0 then some timeout
  else if h : 100 ≤ timeout then pollLoop (fun k => reads (k + 1)) (timeout - 100)
  else none
termination_by timeout
decreasing_by omega

/-- SandboxCgroup.kill_all_tasks (lib.rs 112-147).  emptyAtEntry is the
initial is_empty check; frozenReads gives the successive reads of
freezer.state compared against FROZEN; emptyReads gives the successive
is_empty polls after SIGKILL and THAWED.  The two loops share one timeout
budget.  some (ok) is success, some (error) the KillFailed result, none a
Duration subtraction panic. -/
def kill_all_tasks (timeout : Nat) (emptyAtEntry : Bool)
    (frozenReads emptyReads : Nat → Bool) : Option (Except String Unit) :=
  if emptyAtEntry then some (Except.ok ())
  else
    match pollLoop frozenReads timeout with
    | none => none
    | some t =>
        match pollLoop emptyReads t with
        | none => none
        | some 0 => some (Except.error "Failed to kill all task(s)")
        | some (Nat.succ _) => some (Except.ok ())

/-- Supervisor wait loop of Sandbox::run (lib.rs 300-315): the budget is
time_limit = config.time_limit + 500 ms and each is_empty poll costs the
100 ms delay; the result is the final value of timeout, none on a
Duration subtraction panic. -/
def runWaitLoop (emptyReads : Nat → Bool) (config_time_limit : Nat) : Option Nat :=
  pollLoop emptyReads (config_time_limit + 500)

/-- Used-time selection of Sandbox::run (lib.rs 324-328): when the loop
ended with timeout equal to zero, used_time is the maximum of
time_limit + delay (that is config.time_limit + 500 + 100 ms) and the
cpuacct reading; otherwise it is the cpuacct reading. -/
def run_used_time_ns (finalTimeout config_time_limit cpu_ns : Nat) : Nat :=
  if finalTimeout = 0 then max (msToNs (config_time_limit + 500 + 100)) cpu_ns
  else cpu_ns

/-- Composition of the supervisor wait loop with the used-time selection
(lib.rs 300-328), for a run in which the parent branch executes. -/
def supervisorUsedTime (emptyReads : Nat → Bool) (config_time_limit cpu_ns : Nat) :
    Option Nat :=
  (runWaitLoop emptyReads config_time_limit).map
    (fun ft => run_used_time_ns ft config_time_limit cpu_ns)

theorem pollLoop_never_hit (t : Nat) (reads : Nat → Bool) (hdiv : t % 100 = 0)
    (hmiss : ∀ k, 100 * k < t → reads k = false) :
    pollLoop reads t = some 0 := by
  induction t using Nat.strongRecOn generalizing reads with
  | ind t ih =>
    unfold pollLoop
    by_cases h0 : t = 0
    · simp [h0]
    · have hr0 : reads 0 = false := hmiss 0 (by omega)
      have h1 : 100 ≤ t := by omega
      simp only [h0, if_false, hr0, Bool.false_eq_true, dif_pos h1]
      exact ih (t - 100) (by omega) _ (by omega) (fun k hk => hmiss (k + 1) (by omega))

theorem pollLoop_first_hit (i₀ : Nat) (reads : Nat → Bool) (t : Nat)
    (hmin : ∀ k, k < i₀ → reads k = false) (hhit : reads i₀ = true)
    (hlt : 100 * i₀ < t) :
    pollLoop reads t = some (t - 100 * i₀) := by
  induction i₀ generalizing reads t with
  | zero =>
    unfold pollLoop
    have h0 : ¬ t = 0 := by omega
    simp [h0, hhit]
  | succ n ih =>
    unfold pollLoop
    have h0 : ¬ t = 0 := by omega
    have hr0 : reads 0 = false := hmin 0 (Nat.succ_pos n)
    have h1 : 100 ≤ t := by omega
    simp only [h0, if_false, hr0, Bool.false_eq_true, dif_pos h1]
    rw [ih (fun k => reads (k + 1)) (t - 100) (fun k hk => hmin (k + 1) (by omega)) hhit
      (by omega)]
    congr 1
    omega

theorem pollLoop_hit_exists (t : Nat) (reads : Nat → Bool) (j : Nat)
    (hj : 100 * j < t) (hhit : reads j = true) :
    ∃ r, pollLoop reads t = some r ∧ r ≠ 0 := by
  induction j generalizing reads t with
  | zero =>
    unfold pollLoop
    have h0 : ¬ t = 0 := by omega
    by_cases hr : reads 0 = true
    · exact ⟨t, by simp [h0, hr], h0⟩
    · exact absurd hhit hr
  | succ n ih =>
    unfold pollLoop
    have h0 : ¬ t = 0 := by omega
    by_cases hr : reads 0 = true
    · exact ⟨t, by simp [h0, hr], h0⟩
    · have h1 : 100 ≤ t := by omega
      have hr0 : reads 0 = false := by
        cases hb : reads 0
        · rfl
        · exact absurd hb hr
      obtain ⟨r, hrec, hne⟩ := ih (t - 100) (fun k => reads (k + 1)) (by omega) hhit
      refine ⟨r, ?_, hne⟩
      simp only [h0, if_false, hr0, Bool.false_eq_true, dif_pos h1]
      exact hrec

theorem pollLoop_miss_of_zero (t : Nat) (reads : Nat → Bool)
    (h : pollLoop reads t = some 0) : ∀ j, 100 * j < t → reads j = false := by
  intro j hj
  cases hb : reads j
  · rfl
  · obtain ⟨r, hr, hne⟩ := pollLoop_hit_exists t reads j hj hb
    rw [h] at hr
    cases hr
    exact absurd rfl hne

theorem pollLoop_some_of_div (t : Nat) (reads : Nat → Bool) (hdiv : t % 100 = 0) :
    ∃ r, pollLoop reads t = some r := by
  induction t using Nat.strongRecOn generalizing reads with
  | ind t ih =>
    unfold pollLoop
    by_cases h0 : t = 0
    · exact ⟨0, by simp [h0]⟩
    · by_cases hr : reads 0 = true
      · exact ⟨t, by simp [h0, hr]⟩
      · have hr0 : reads 0 = false := by
          cases hb : reads 0
          · rfl
          · exact absurd hb hr
        have h1 : 100 ≤ t := by omega
        obtain ⟨r, hrec⟩ := ih (t - 100) (by omega) (fun k => reads (k + 1)) (by omega)
        refine ⟨r, ?_⟩
        simp only [h0, if_false, hr0, Bool.false_eq_true, dif_pos h1]
        exact hrec

theorem pollLoop_const_false (t : Nat) :
    pollLoop (fun _ => false) t = if t % 100 = 0 then some 0 else none := by
  induction t using Nat.strongRecOn with
  | ind t ih =>
    unfold pollLoop
    by_cases h0 : t = 0
    · simp [h0]
    · by_cases h1 : 100 ≤ t
      · simp only [h0, if_false, Bool.false_eq_true, dif_pos h1]
        rw [ih (t - 100) (by omega)]
        have : (t - 100) % 100 = t % 100 := by omega
        rw [this]
      · have h2 : ¬ t % 100 = 0 := by omega
        simp [h0, h1, h2]

/-- C1 counterexample: with config.memory_limit = 1 byte the caps actually
programmed are (4, 4), not the claimed memory_limit times 2 = (2, 2). -/
theorem run_memory_caps_not_doubled : run_memory_caps 1 ≠ (1 * 2, 1 * 2) := by
  decide

/-- C1 (amended): for every call of run(config), the cgroup hard caps
actually programmed (both memory.limit_in_bytes and
memory.memsw.limit_in_bytes) equal config.memory_limit times 4 — run
passes the limit doubled into set_memory_limit, which doubles it again —
while the MemoryLimitExceeded decision compares the observed peak against
the undoubled config.memory_limit. -/
theorem run_memory_caps_quadrupled (m mm ut tl : Nat) (hut : ut ≤ msToNs tl) :
    run_memory_caps m = (m * 4, m * 4) ∧
    (classify 0 mm m ut tl = SandboxStatusKind.MemoryLimitExceeded ↔ m < mm) := by
  have hnt : ¬ msToNs tl < ut := by omega
  constructor
  · unfold run_memory_caps set_memory_limit
    have h4 : m * 2 * 2 = m * 4 := by ring
    rw [h4]
  · by_cases hm : m < mm
    · simp [classify, hm, hnt]
    · simp [classify, hm, hnt]

/-- C1 witness for the amended theorem, at memory_limit 1 byte. -/
theorem run_memory_caps_quadrupled_witness :
    run_memory_caps 1 = (1 * 4, 1 * 4) ∧
    (classify 0 2 1 0 1000 = SandboxStatusKind.MemoryLimitExceeded ↔ 1 < 2) :=
  run_memory_caps_quadrupled 1 2 0 1000 (Nat.zero_le _)

/-- C2: the returned status obeys the priority
TimeLimitExceeded > MemoryLimitExceeded > RuntimeError > Success:
used_time over the limit yields TLE whatever the memory peak and return
code, a memory breach yields MLE whatever the return code when time is
within bounds, and a nonzero return code yields RuntimeError exactly when
neither limit is breached. -/
theorem status_priority (rc : Int) (mm ml ut tl : Nat) :
    (msToNs tl < ut → classify rc mm ml ut tl = SandboxStatusKind.TimeLimitExceeded) ∧
    (ut ≤ msToNs tl → ml < mm →
      classify rc mm ml ut tl = SandboxStatusKind.MemoryLimitExceeded) ∧
    (ut ≤ msToNs tl → mm ≤ ml → rc ≠ 0 →
      classify rc mm ml ut tl = SandboxStatusKind.RuntimeError) ∧
    (classify rc mm ml ut tl = SandboxStatusKind.RuntimeError →
      rc ≠ 0 ∧ mm ≤ ml ∧ ut ≤ msToNs tl) := by
  unfold classify
  refine ⟨fun h => by simp [h], fun h1 h2 => ?_, fun h1 h2 h3 => ?_, fun h => ?_⟩
  · have hnt : ¬ msToNs tl < ut := by omega
    simp [hnt, h2]
  · have hnt : ¬ msToNs tl < ut := by omega
    have hnm : ¬ ml < mm := by omega
    simp [hnt, hnm, h3]
  · by_cases a : msToNs tl < ut
    · simp [a] at h
    · by_cases b : ml < mm
      · simp [a, b] at h
      · by_cases c : rc ≠ 0
        · exact ⟨c, by omega, by omega⟩
        · simp [a, b, c] at h

/-- C2 witness: one concrete input per priority rule. -/
theorem status_priority_witness :
    classify 1 2 1 (msToNs 2000) 1000 = SandboxStatusKind.TimeLimitExceeded ∧
    classify 1 2 1 (msToNs 500) 1000 = SandboxStatusKind.MemoryLimitExceeded ∧
    classify 1 1 1 (msToNs 500) 1000 = SandboxStatusKind.RuntimeError :=
  ⟨(status_priority 1 2 1 (msToNs 2000) 1000).1 (by decide),
   (status_priority 1 2 1 (msToNs 500) 1000).2.1 (by decide) (by decide),
   (status_priority 1 1 1 (msToNs 500) 1000).2.2.1 (by decide) (by decide) (by decide)⟩

/-- C5: a failure of the post-run kill_all_tasks does not change the
outcome of run; the tail of run produces the same value whether the kill
succeeded or failed, and whenever the waited status is not the sentinel
101 the run still returns a classified outcome rather than propagating
the kill error. -/
theorem kill_failure_not_propagated (rc : Option Int) (killErr : String)
    (mm ml ut tl : Nat) :
    runTail rc (Except.error killErr) mm ml ut tl
      = runTail rc (Except.ok ()) mm ml ut tl ∧
    (rc ≠ some 101 →
      ∃ s, runTail rc (Except.error killErr) mm ml ut tl = Except.ok s) := by
  refine ⟨rfl, fun h => ?_⟩
  match rc with
  | none => exact ⟨_, rfl⟩
  | some c =>
    have hc : ¬ c = 101 := fun hc => h (by rw [hc])
    refine ⟨{ status := classify c mm ml ut tl, used_time := ut / 1000000,
              max_memory := mm, return_code := c }, ?_⟩
    simp [runTail, returnCodeOf, hc]

/-- C5 witness at a concrete failed kill. -/
theorem kill_failure_not_propagated_witness :
    runTail (some 0) (Except.error "Failed to kill all task(s)") 0 0 0 1000
      = runTail (some 0) (Except.ok ()) 0 0 0 1000 ∧
    ∃ s, runTail (some 0) (Except.error "Failed to kill all task(s)") 0 0 0 1000
      = Except.ok s :=
  ⟨(kill_failure_not_propagated (some 0) "Failed to kill all task(s)" 0 0 0 1000).1,
   (kill_failure_not_propagated (some 0) "Failed to kill all task(s)" 0 0 0 1000).2
     (by decide)⟩

/-- C6 counterexample: a user command that itself exits with the sentinel
value 101 produces, at a concrete classification input, exactly the same
run result as a launcher abort, so the two are not distinguishable as the
claim states. -/
theorem user_exit_101_indistinguishable :
    runTail (some (childProcessExit (some 101))) (Except.ok ()) 0 0 0 1000
      = runTail (some launcherAbortExit) (Except.ok ()) 0 0 0 1000 := rfl

/-- C6 (amended): run determines return_code per the spec step 7: the
sentinel exit value 101 makes run return the internal error instead of an
outcome; a signalled or unwaitable child gives return_code -1; any other
status passes through as the exit code — but a user command that itself
exits with the sentinel value is indistinguishable from a launcher abort,
both being mapped to the same internal error. -/
theorem return_code_rule (c : Int) (hc : c ≠ 101) :
    returnCodeOf (some 101) = Except.error "Failed to run command" ∧
    returnCodeOf none = Except.ok (-1) ∧
    returnCodeOf (some c) = Except.ok c ∧
    returnCodeOf (some (childProcessExit (some 101)))
      = returnCodeOf (some launcherAbortExit) := by
  refine ⟨rfl, rfl, ?_, rfl⟩
  simp [returnCodeOf, hc]

/-- C6 witness at exit code 7. -/
theorem return_code_rule_witness :
    returnCodeOf (some 101) = Except.error "Failed to run command" ∧
    returnCodeOf none = Except.ok (-1) ∧
    returnCodeOf (some 7) = Except.ok 7 ∧
    returnCodeOf (some (childProcessExit (some 101)))
      = returnCodeOf (some launcherAbortExit) :=
  return_code_rule 7 (by decide)

/-- C7 counterexample: the program actually spawned is bash, not sh. -/
theorem launch_program_not_sh :
    (launchCommand "echo ok" "/sandbox").program ≠ "sh" := by
  decide

/-- C7 (amended): for every run(config) the user command is executed as
bash -c followed by the command string, with current directory and chroot
target both equal to the sandbox mount point; the lower root image must
therefore provide the bash binary. -/
theorem launch_uses_bash (command dir : String) :
    launchCommand command dir
      = { program := "bash", args := ["-c", command],
          current_dir := dir, chroot_dir := dir } := rfl

/-- C8: the first remove on a mounted sandbox unmounts and clears the
mounted flag, and every subsequent remove or drop performs no unmount;
drop just delegates to remove. -/
theorem remove_unmounts_exactly_once (s : SandboxFS) (h : s.mounted = true) :
    Sandbox.remove s = ({ s with mounted := false }, true) ∧
    Sandbox.remove (Sandbox.remove s).1 = ((Sandbox.remove s).1, false) ∧
    Sandbox.dropSandbox (Sandbox.remove s).1 = ((Sandbox.remove s).1, false) := by
  unfold Sandbox.dropSandbox Sandbox.remove
  simp [h]

/-- C8 witness on a concrete mounted sandbox. -/
theorem remove_unmounts_exactly_once_witness :
    Sandbox.remove ⟨"/sb", "/work", "/lower", true⟩
      = (⟨"/sb", "/work", "/lower", false⟩, true) ∧
    Sandbox.remove (Sandbox.remove ⟨"/sb", "/work", "/lower", true⟩).1
      = ((Sandbox.remove ⟨"/sb", "/work", "/lower", true⟩).1, false) ∧
    Sandbox.dropSandbox (Sandbox.remove ⟨"/sb", "/work", "/lower", true⟩).1
      = ((Sandbox.remove ⟨"/sb", "/work", "/lower", true⟩).1, false) :=
  remove_unmounts_exactly_once ⟨"/sb", "/work", "/lower", true⟩ rfl

theorem runForkFailed_eq (t ml mm : Nat) :
    runForkFailed t ml mm
      = Except.ok ⟨SandboxStatusKind.TimeLimitExceeded, t + 500, mm, 0⟩ := by
  unfold runForkFailed runTail returnCodeOf
  have h1 : msToNs t < msToNs (t + 500) := by unfold msToNs; omega
  have h2 : msToNs (t + 500) / 1000000 = t + 500 := by
    unfold msToNs
    exact Nat.mul_div_cancel _ (by omega)
  simp [classify, h1, h2]

/-- C9 counterexample: on the fork-failure path the returned outcome is
never Success for any configuration, because used_time is stuck at the
deadline, which strictly exceeds the time limit. -/
theorem fork_failure_never_success :
    ¬ ∃ (t ml mm : Nat) (s : SandboxStatus),
        runForkFailed t ml mm = Except.ok s
          ∧ s.status = SandboxStatusKind.Success := by
  rintro ⟨t, ml, mm, s, hs, hstat⟩
  rw [runForkFailed_eq] at hs
  injection hs with hs
  rw [← hs] at hstat
  cases hstat

/-- C9 (amended): if the initial fork in run fails, run does not surface
an error: it only logs, leaves return_code at its initial value 0 and
used_time at the deadline, and proceeds to classification, so for every
config whose fork fails it returns a RunOutcome — always
TimeLimitExceeded with return_code 0 and used_time the deadline, since
the deadline config.time_limit + 500 ms exceeds the time limit — for a
command that never started. -/
theorem fork_failure_returns_outcome (t ml mm : Nat) :
    runForkFailed t ml mm
      = Except.ok ⟨SandboxStatusKind.TimeLimitExceeded, t + 500, mm, 0⟩ :=
  runForkFailed_eq t ml mm

/-- C10: when the command outlives the deadline (the cgroup is never
observed empty), the supervisor loop reaches the deadline-expiry value
timeout = 0 exactly when config.time_limit + 500 ms is a multiple of the
100 ms poll delay; for every config violating that divisibility the
subtraction timeout -= delay would drop below zero, a Duration
subtraction panic. -/
theorem supervisor_loop_underflow (t : Nat) :
    (runWaitLoop (fun _ => false) t = some 0 ↔ (t + 500) % 100 = 0) ∧
    (¬ (t + 500) % 100 = 0 → runWaitLoop (fun _ => false) t = none) := by
  unfold runWaitLoop
  rw [pollLoop_const_false]
  constructor
  · by_cases h : (t + 500) % 100 = 0 <;> simp [h]
  · intro h
    simp [h]

/-- C10 witness: config.time_limit = 50 ms violates the divisibility and
the loop hits the panicking subtraction. -/
theorem supervisor_loop_underflow_witness :
    runWaitLoop (fun _ => false) 50 = none :=
  (supervisor_loop_underflow 50).2 (by decide)

/-- C3 counterexample: with config.time_limit = 500 ms, a command
outliving the deadline and a cpuacct reading of zero, the code reports
the deadline plus the 100 ms poll delay (1100 ms), not max(deadline,
cpu_time()) = 1000 ms as claimed. -/
theorem used_time_not_max_deadline :
    supervisorUsedTime (fun _ => false) 500 0
      ≠ some (max (msToNs (500 + 500)) 0) := by
  have h : supervisorUsedTime (fun _ => false) 500 0
      = some (max (msToNs (500 + 500 + 100)) 0) := by
    unfold supervisorUsedTime runWaitLoop
    rw [pollLoop_const_false]
    norm_num [run_used_time_ns]
  rw [h]
  simp [msToNs]

/-- C3 (amended): in every run in which the deadline (wall_time_limit
plus the 500 ms grace) elapses without the cgroup being observed empty,
the reported used_time equals max(deadline + the 100 ms poll delay,
cpu_time()); in every run where the cgroup is observed empty before the
deadline, used_time equals cpu_time() read from the cpuacct
controller. -/
theorem used_time_selection (emptyReads : Nat → Bool) (t cpu : Nat)
    (hdiv : (t + 500) % 100 = 0) :
    ((∀ j, 100 * j < t + 500 → emptyReads j = false) →
      supervisorUsedTime emptyReads t cpu
        = some (max (msToNs (t + 500 + 100)) cpu)) ∧
    ((∃ j, 100 * j < t + 500 ∧ emptyReads j = true) →
      supervisorUsedTime emptyReads t cpu = some cpu) := by
  constructor
  · intro hmiss
    unfold supervisorUsedTime runWaitLoop
    rw [pollLoop_never_hit (t + 500) emptyReads hdiv hmiss]
    simp [run_used_time_ns]
  · rintro ⟨j, hj, hhit⟩
    obtain ⟨r, hr, hne⟩ := pollLoop_hit_exists (t + 500) emptyReads j hj hhit
    unfold supervisorUsedTime runWaitLoop
    rw [hr]
    simp [run_used_time_ns, hne]

/-- C3 witness for the amended theorem: a command outliving the deadline
at config.time_limit = 500 ms, and a command observed gone at the first
poll. -/
theorem used_time_selection_witness :
    supervisorUsedTime (fun _ => false) 500 7
      = some (max (msToNs (500 + 500 + 100)) 7) ∧
    supervisorUsedTime (fun _ => true) 500 7 = some 7 :=
  ⟨(used_time_selection (fun _ => false) 500 7 (by decide)).1 (fun j hj => rfl),
   (used_time_selection (fun _ => true) 500 7 (by decide)).2 ⟨0, by decide, rfl⟩⟩

theorem kill_all_tasks_false (timeout : Nat) (f g : Nat → Bool) :
    kill_all_tasks timeout false f g
      = match pollLoop f timeout with
        | none => none
        | some t =>
            match pollLoop g t with
            | none => none
            | some 0 => some (Except.error "Failed to kill all task(s)")
            | some (Nat.succ _) => some (Except.ok ()) := rfl

theorem kill_all_tasks_false_freeze (timeout t : Nat) (f g : Nat → Bool)
    (hf : pollLoop f timeout = some t) :
    kill_all_tasks timeout false f g
      = match pollLoop g t with
        | none => none
        | some 0 => some (Except.error "Failed to kill all task(s)")
        | some (Nat.succ _) => some (Except.ok ()) := by
  rw [kill_all_tasks_false, hf]

/-- C4: kill_all_tasks returns success exactly when the cgroup is empty
at entry (immediate success, before any freeze or signal) or an is_empty
poll after the freeze, SIGKILL and thaw steps observes the cgroup empty
while the shared timeout budget is not exhausted; if every in-budget poll
still sees tasks it fails with the KillFailed error.  Stated for a
timeout that is a multiple of the 100 ms poll delay and a freezer whose
state first reads FROZEN at poll i₀ within the budget. -/
theorem kill_all_tasks_spec (timeout : Nat) (e : Bool)
    (frozenReads emptyReads : Nat → Bool) (i₀ : Nat)
    (hdiv : timeout % 100 = 0)
    (hmin : ∀ k, k < i₀ → frozenReads k = false) (hfz : frozenReads i₀ = true)
    (hlt : 100 * i₀ < timeout) :
    (kill_all_tasks timeout e frozenReads emptyReads = some (Except.ok ()) ↔
      e = true ∨ ∃ j, 100 * (i₀ + j) < timeout ∧ emptyReads j = true) ∧
    (kill_all_tasks timeout e frozenReads emptyReads
        = some (Except.error "Failed to kill all task(s)") ↔
      e = false ∧ ∀ j, 100 * (i₀ + j) < timeout → emptyReads j = false) := by
  have hfreeze : pollLoop frozenReads timeout = some (timeout - 100 * i₀) :=
    pollLoop_first_hit i₀ frozenReads timeout hmin hfz hlt
  cases e with
  | true => simp [kill_all_tasks]
  | false =>
    rw [kill_all_tasks_false_freeze timeout (timeout - 100 * i₀) frozenReads emptyReads
      hfreeze]
    by_cases hex : ∃ j, 100 * j < timeout - 100 * i₀ ∧ emptyReads j = true
    · obtain ⟨j, hj, hhit⟩ := hex
      obtain ⟨r, hr, hne⟩ :=
        pollLoop_hit_exists (timeout - 100 * i₀) emptyReads j hj hhit
      rw [hr]
      cases r with
      | zero => exact absurd rfl hne
      | succ n =>
        refine ⟨⟨fun _ => Or.inr ⟨j, by omega, hhit⟩, fun _ => rfl⟩,
          ⟨fun hcon => ?_, fun hall => ?_⟩⟩
        · exact absurd (Option.some.inj hcon) (fun hx => Except.noConfusion hx)
        · obtain ⟨-, hall⟩ := hall
          have hj' := hall j (by omega)
          rw [hhit] at hj'
          cases hj'
    · have hmiss : ∀ j, 100 * j < timeout - 100 * i₀ → emptyReads j = false := by
        intro j hj
        cases hb : emptyReads j
        · rfl
        · exact absurd ⟨j, hj, hb⟩ hex
      rw [pollLoop_never_hit (timeout - 100 * i₀) emptyReads (by omega) hmiss]
      refine ⟨⟨fun hcon => ?_, fun hcon => ?_⟩,
        ⟨fun _ => ⟨rfl, fun j hj => hmiss j (by omega)⟩, fun _ => rfl⟩⟩
      · exact absurd (Option.some.inj hcon) (fun hx => Except.noConfusion hx)
      · rcases hcon with hcon | ⟨j, hj, hhit⟩
        · cases hcon
        · have hj' := hmiss j (by omega)
          rw [hhit] at hj'
          cases hj'

/-- C4 witness: timeout 300 ms, non-empty cgroup at entry, freezer FROZEN
at the first poll, cgroup observed empty at the second is_empty poll. -/
theorem kill_all_tasks_spec_witness :
    (kill_all_tasks 300 false (fun _ => true) (fun j => j == 1)
        = some (Except.ok ()) ↔
      false = true ∨ ∃ j, 100 * (0 + j) < 300 ∧ (j == 1) = true) ∧
    (kill_all_tasks 300 false (fun _ => true) (fun j => j == 1)
        = some (Except.error "Failed to kill all task(s)") ↔
      false = false ∧ ∀ j, 100 * (0 + j) < 300 → (j == 1) = false) :=
  kill_all_tasks_spec 300 false (fun _ => true) (fun j => j == 1) 0 (by decide)
    (fun k hk => absurd hk (Nat.not_lt_zero k)) rfl (by decide)
